import Mathlib

/-!
Shallow embedding of `clish/shell/shell_spawn.c` (klish), covering:

* `clish_shell_tilde_expand` — tilde substitution over a search-path string;
* `clish_shell_load_files` — the per-directory XML-file discovery loop;
* `_loop` / `clish_shell_loop` — the read-execute loop over the input-source
  stack and the READY / SCRIPT_ERROR / CLOSING state machine;
* `clish_shell_thread` / `clish_shell_spawn` / `clish_shell_wait` /
  `clish_shell_spawn_and_wait` — the asynchronous execution entry points;
* `_from_file` — running a session with a named file as the input source.

Strings are embedded as `List Char`.  Streams are identified by the natural
number naming their underlying file descriptor; `fdopen(fileno(f), "r")`
yields a new stream handle sharing `f`'s descriptor, so it is represented by
the same number.  Collaborators that live in other files of the repository
(`lub_string_cat`/`lub_string_catn`, `clish_shell_push_file`,
`clish_shell_pop_file`, `clish_shell_readline`) are modelled from the spec,
as documented on each definition.
-/

namespace Klish

/-- Model of `lub_string_cat`: append a string to the accumulated result
(`lub_string.c` is not part of the embedded sources; per the spec the path
expansion is a pure string transformation, so concatenation is plain
append). -/
def lub_string_cat (result s : List Char) : List Char :=
  result ++ s

/-- Model of `lub_string_catn`: append the first `count` characters of
`segment` to the accumulated result. -/
def lub_string_catn (result segment : List Char) (count : Nat) : List Char :=
  result ++ segment.take count

/-- The character-by-character loop of `clish_shell_tilde_expand`
(shell_spawn.c lines 29-46).  `p` is the remaining input, `segment` the
pending-segment pointer, `count` the number of characters scanned since
`segment`, and `result` the accumulated output.  In the C code `count` is
set to `-1` and immediately incremented back to `0` before the next test,
so at every loop head `count` is a natural number. -/
def tildeLoop (home : List Char) :
    List Char → List Char → Nat → List Char → List Char
  | [], segment, count, result =>
    if count ≠ 0 then lub_string_catn result segment count else result
  | c :: p, segment, count, result =>
    if c = '~' then
      if count ≠ 0 then
        tildeLoop home p (segment.drop (count + 1)) 0
          (lub_string_cat (lub_string_catn result segment count) home)
      else
        tildeLoop home p segment 1 (lub_string_cat result home)
    else
      tildeLoop home p segment (count + 1) result

/-- `clish_shell_tilde_expand` (shell_spawn.c lines 25-48): substitute the
home directory for tilde tokens in `path`.  `home` is the value of the
HOME environment variable (empty when unset). -/
def clish_shell_tilde_expand (home path : List Char) : List Char :=
  tildeLoop home path path 0 []

/-- Written from the spec's words, for comparison with the source function:
every occurrence of the home token is replaced by the resolved home value
and all other characters are preserved verbatim. -/
def specTildeExpand (home : List Char) : List Char → List Char
  | [] => []
  | c :: rest =>
    (if c = '~' then home else [c]) ++ specTildeExpand home rest

/-- `default_path` (shell_spawn.c line 19). -/
def default_path : List Char := "/etc/clish;~/.clish".toList

/-- Model of `strrchr(name, '.')`: the suffix of `name` that starts at its
last dot, or `none` when `name` has no dot. -/
def lastDotSuffix : List Char → Option (List Char)
  | [] => none
  | c :: rest =>
    match lastDotSuffix rest with
    | some s => some s
    | none => if c = '.' then some (c :: rest) else none

/-- The extension compared against in `clish_shell_load_files`
(shell_spawn.c line 84). -/
def xmlExt : List Char := ".xml".toList

/-- The per-directory entry loop of `clish_shell_load_files` (shell_spawn.c
lines 80-101): for each directory entry whose `strrchr`-computed extension
equals `".xml"`, build `dirname + "/" + name`, hand it to the external
XML reader, and discard the reader's result (the C casts it to void).
Returns the list of file names passed to the reader, in order. -/
def clish_shell_load_dir (xml_read : List Char → Bool) (dirname : List Char) :
    List (List Char) → List (List Char)
  | [] => []
  | name :: rest =>
    match lastDotSuffix name with
    | none => clish_shell_load_dir xml_read dirname rest
    | some ext =>
      if ext = xmlExt then
        let filename := lub_string_cat (lub_string_cat dirname ['/']) name
        let _ := xml_read filename
        filename :: clish_shell_load_dir xml_read dirname rest
      else
        clish_shell_load_dir xml_read dirname rest

/-- The session states of `clish_shell_t` used by the loop
(READY / SCRIPT_ERROR / CLOSING). -/
inductive ShellState where
  | READY
  | SCRIPT_ERROR
  | CLOSING
deriving DecidableEq

/-- The outcome of dispatching one line: the external dispatcher either
succeeds or fails. -/
inductive LineOutcome where
  | ok
  | err
deriving DecidableEq

/-- One input source on the stack: the number of its underlying file
descriptor, the owns-stream flag passed to `clish_shell_push_file`, its
tty flag, and the (outcomes of the) lines remaining on it. -/
structure Source where
  sid : Nat
  owned : Bool
  tty : Bool
  lines : List LineOutcome
deriving DecidableEq

/-- The observable state the loop mutates: the session state, the input
stack (head = top, the active source), and the descriptors closed so far
(in order of closing). -/
structure LoopState where
  state : ShellState
  stack : List Source
  closed : List Nat
deriving DecidableEq

/-- Observable events of one run, in order. -/
inductive Event where
  | readLine (sid : Nat)
  | readEof (sid : Nat)
  | recover
  | popped (sid : Nat) (owned : Bool)
  | closeStream (sid : Nat)
deriving DecidableEq

/-- Modelled from the spec: `clish_shell_push_file` (not under src/) —
InputStack.Push: the new source becomes the active read source
immediately. -/
def clish_shell_push_file (ls : LoopState) (src : Source) : LoopState :=
  { ls with stack := src :: ls.stack }

/-- Modelled from the spec: `clish_shell_pop_file` (not under src/) —
InputStack.Pop: removes the top source, closing its underlying resource
iff it was owned; returns false exactly when the stack becomes empty after
the pop. -/
def clish_shell_pop_file (ls : LoopState) : LoopState × List Event × Bool :=
  match ls.stack with
  | [] => (ls, [], false)
  | src :: rest =>
    if src.owned then
      ({ ls with stack := rest, closed := ls.closed ++ [src.sid] },
       [Event.popped src.sid true, Event.closeStream src.sid], !rest.isEmpty)
    else
      ({ ls with stack := rest }, [Event.popped src.sid false], !rest.isEmpty)

/-- Modelled from the spec: `clish_shell_readline` (shell_readline.c, not
under src/) — reads one line from the top source and dispatches it
externally; reading end-of-stream yields a "no more input" signal
(BOOL_FALSE) rather than a dispatch; a line that executes successfully
leaves the state READY, a line whose execution fails moves the state to
SCRIPT_ERROR (spec 4.4). -/
def clish_shell_readline (ls : LoopState) : LoopState × List Event × Bool :=
  match ls.stack with
  | [] => (ls, [], false)
  | src :: rest =>
    match src.lines with
    | [] => (ls, [Event.readEof src.sid], false)
    | LineOutcome.ok :: more =>
      ({ ls with stack := { src with lines := more } :: rest },
       [Event.readLine src.sid], true)
    | LineOutcome.err :: more =>
      ({ ls with stack := { src with lines := more } :: rest,
                 state := ShellState.SCRIPT_ERROR },
       [Event.readLine src.sid], true)

/-- `tinyrl__get_isatty(this->tinyrl)`: whether the currently active input
source is a terminal (the line editor's istream is the top of the stack). -/
def tinyrl_isatty (ls : LoopState) : Bool :=
  match ls.stack with
  | [] => false
  | src :: _ => src.tty

/-- One iteration of the `while (running)` body of `_loop` (shell_spawn.c
lines 129-147, without the thread cancellation checkpoint): recover to
READY when in SCRIPT_ERROR on a tty; read (and dispatch) the next line
unless in SCRIPT_ERROR; pop the input stack when the read signalled end of
input or the state is SCRIPT_ERROR.  Returns the new state, the events of
the iteration, and the `running` flag. -/
def loopBody (ls : LoopState) : LoopState × List Event × Bool :=
  let step1 : LoopState × List Event :=
    if ls.state = ShellState.SCRIPT_ERROR ∧ tinyrl_isatty ls then
      ({ ls with state := ShellState.READY }, [Event.recover])
    else
      (ls, [])
  let ls1 := step1.1
  let r2 : LoopState × List Event × Bool :=
    if ls1.state ≠ ShellState.SCRIPT_ERROR then clish_shell_readline ls1
    else (ls1, [], true)
  let ls2 := r2.1
  let running := r2.2.2
  let r3 : LoopState × List Event × Bool :=
    if running = false ∨ ls2.state = ShellState.SCRIPT_ERROR then
      clish_shell_pop_file ls2
    else
      (ls2, [], running)
  (r3.1, step1.2 ++ r2.2.1 ++ r3.2.1, r3.2.2)

/-- The `while (running)` loop of `_loop`, fuelled: iterates `loopBody`
until `running` becomes false (the returned flag is false) or the fuel
runs out (the returned flag is true, meaning the loop had not finished). -/
def runLoop : Nat → LoopState → LoopState × List Event × Bool
  | 0, ls => (ls, [], true)
  | fuel + 1, ls =>
    let r := loopBody ls
    if r.2.2 then
      let r2 := runLoop fuel r.1
      (r2.1, r.2.1 ++ r2.2.1, r2.2.2)
    else
      (r.1, r.2.1, false)

/-- The session object as far as `_loop` consumes it: its state and the
default input stream configured in the line editor (`tinyrl`'s istream),
identified by the number of its underlying descriptor. -/
structure ClishShell where
  state : ShellState
  istreamId : Nat
  istreamTty : Bool
  istreamLines : List LineOutcome
deriving DecidableEq

/-- The push at shell_spawn.c lines 122-123: the default input stream is
wrapped by `fdopen(fileno(...), "r")` — a new stream handle sharing the
caller stream's underlying descriptor — and pushed with owns = BOOL_TRUE. -/
def initialLoopState (s : ClishShell) : LoopState :=
  clish_shell_push_file { state := s.state, stack := [], closed := [] }
    { sid := s.istreamId, owned := true, tty := s.istreamTty,
      lines := s.istreamLines }

/-- `_loop(this, is_thread = false)` (shell_spawn.c lines 114-155): when the
session pointer is non-NULL and the state is not CLOSING, push the default
input source and run the read-execute loop; in every case return
BOOL_TRUE.  The first two components expose the final loop state and the
events of the run. -/
def _loop (sh : Option ClishShell) (fuel : Nat) : LoopState × List Event × Bool :=
  match sh with
  | none => (⟨ShellState.READY, [], []⟩, [], true)
  | some s =>
    if s.state = ShellState.CLOSING then (⟨s.state, [], []⟩, [], true)
    else
      let r := runLoop fuel (initialLoopState s)
      (r.1, r.2.1, true)

/-- `clish_shell_loop` (shell_spawn.c lines 276-279): the synchronous entry
point; its boolean return value. -/
def clish_shell_loop (sh : Option ClishShell) (fuel : Nat) : Bool :=
  (_loop sh fuel).2.2

/-- How an asynchronous activation ended: the loop finished (its pop
returned false), the thread was cancelled at a checkpoint, or the fuel ran
out before either. -/
inductive ExitKind where
  | normal
  | cancelled
  | fuelOut
deriving DecidableEq

/-- `clish_shell_thread_cleanup` (shell_spawn.c lines 161-174): the
cancellation/exit handler registered by `clish_shell_thread`.  Its body
does nothing to the session ("Nothing to do now. The context will be free
later."). -/
def clish_shell_thread_cleanup (ls : LoopState) : LoopState :=
  ls

/-- The `while (running)` loop of `_loop(this, is_thread = true)`: as
`runLoop`, but after each iteration `pthread_testcancel()` is reached
(shell_spawn.c lines 149-150); `cancelAt k` tells whether a cancellation
request is pending at checkpoint number `k`.  Cancellation terminates the
thread through the cleanup handler. -/
def runLoopThread (cancelAt : Nat → Bool) :
    Nat → Nat → LoopState → LoopState × List Event × ExitKind
  | 0, _, ls => (ls, [], ExitKind.fuelOut)
  | fuel + 1, k, ls =>
    let r := loopBody ls
    if cancelAt k then (clish_shell_thread_cleanup r.1, r.2.1, ExitKind.cancelled)
    else if r.2.2 then
      let r2 := runLoopThread cancelAt fuel (k + 1) r.1
      (r2.1, r.2.1 ++ r2.2.1, r2.2.2)
    else
      (r.1, r.2.1, ExitKind.normal)

/-- `_loop(this, is_thread = true)` with a non-NULL session: push the
default input source, then reach the first cancellation checkpoint
(shell_spawn.c lines 125-126, checkpoint 0), then run the loop with a
checkpoint at the end of each iteration. -/
def _loopThread (s : ClishShell) (cancelAt : Nat → Bool) (fuel : Nat) :
    LoopState × List Event × ExitKind :=
  if s.state = ShellState.CLOSING then (⟨s.state, [], []⟩, [], ExitKind.normal)
  else
    let ls1 := initialLoopState s
    if cancelAt 0 then (clish_shell_thread_cleanup ls1, [], ExitKind.cancelled)
    else runLoopThread cancelAt fuel 1 ls1

/-- `clish_shell_thread` (shell_spawn.c lines 180-197): the worker body;
runs `_loop(this, BOOL_TRUE)` when the argument is non-NULL, and the
cleanup handler runs on every exit (pthread_cleanup_pop(1)). -/
def clish_shell_thread (sh : Option ClishShell) (cancelAt : Nat → Bool)
    (fuel : Nat) : LoopState × List Event × ExitKind :=
  match sh with
  | none => (⟨ShellState.READY, [], []⟩, [], ExitKind.normal)
  | some s =>
    let r := _loopThread s cancelAt fuel
    (clish_shell_thread_cleanup r.1, r.2.1, r.2.2)

/-- The descriptors named by the close events of a trace, in order. -/
def closedIds (evs : List Event) : List Nat :=
  evs.filterMap fun e =>
    match e with
    | Event.closeStream sid => some sid
    | _ => none

/-- `bool_t BOOL_FALSE`, as the int it is stored in. -/
def BOOL_FALSE : Int := 0

/-- `bool_t BOOL_TRUE`, as the int it is stored in. -/
def BOOL_TRUE : Int := 1

/-- `clish_shell_spawn` (shell_spawn.c lines 200-208): -1 for a NULL
session, otherwise the result of `pthread_create` — which per POSIX is 0 on
success and a positive error number on failure (`create_result` stands for
that value). -/
def clish_shell_spawn (sh : Option ClishShell) (create_result : Int) : Int :=
  match sh with
  | none => -1
  | some _ => create_result

/-- `clish_shell_wait` (shell_spawn.c lines 211-220): BOOL_FALSE for a NULL
session; otherwise joins the worker and maps its result pointer
(`join_result`; NULL when no thread ever ran and stored a result) to
BOOL_TRUE iff it is non-null. -/
def clish_shell_wait (sh : Option ClishShell) (join_result : Int) : Int :=
  match sh with
  | none => BOOL_FALSE
  | some _ => if join_result ≠ 0 then BOOL_TRUE else BOOL_FALSE

/-- `clish_shell_spawn_and_wait` (shell_spawn.c lines 223-229): returns -1
when `clish_shell_spawn` is negative, otherwise the result of
`clish_shell_wait`. -/
def clish_shell_spawn_and_wait (sh : Option ClishShell)
    (create_result join_result : Int) : Int :=
  if clish_shell_spawn sh create_result < 0 then -1
  else clish_shell_wait sh join_result

/-- `_from_file` (shell_spawn.c lines 233-258): BOOL_FALSE when the session
or the filename is NULL or the file cannot be opened (`fopen_result` is
`none`), in which case nothing else happens; otherwise the opened stream
is installed as the line editor's input stream, the session runs either
through `clish_shell_spawn_and_wait` (is_thread) or `clish_shell_loop`,
and the opened stream is closed before returning.  Returns the final
session, the events observed in this calling context, and the boolean
result.  In the threaded branch the loop's events occur on the worker and
are not part of this context's trace. -/
def _from_file (sh : Option ClishShell) (is_thread : Bool)
    (create_result join_result : Int) (fuel : Nat)
    (filename : Option (List Char)) (fopen_result : Option Source) :
    Option ClishShell × List Event × Bool :=
  match sh, filename with
  | some s, some _ =>
    match fopen_result with
    | none => (some s, [], false)
    | some file =>
      let s' : ClishShell :=
        { s with istreamId := file.sid, istreamTty := file.tty,
                 istreamLines := file.lines }
      if is_thread then
        let r := clish_shell_spawn_and_wait (some s') create_result join_result
        (some s', [Event.closeStream file.sid], decide (r ≠ 0))
      else
        let r := _loop (some s') fuel
        (some s', r.2.1 ++ [Event.closeStream file.sid], r.2.2)
  | _, _ => (sh, [], false)

/-- `clish_shell_spawn_from_file` (shell_spawn.c lines 261-265). -/
def clish_shell_spawn_from_file (sh : Option ClishShell)
    (create_result join_result : Int) (fuel : Nat)
    (filename : Option (List Char)) (fopen_result : Option Source) :
    Option ClishShell × List Event × Bool :=
  _from_file sh true create_result join_result fuel filename fopen_result

/-- `clish_shell_from_file` (shell_spawn.c lines 268-272). -/
def clish_shell_from_file (sh : Option ClishShell) (fuel : Nat)
    (filename : Option (List Char)) (fopen_result : Option Source) :
    Option ClishShell × List Event × Bool :=
  _from_file sh false 0 0 fuel filename fopen_result

end Klish

namespace Klish

/-- Helper: `lastDotSuffix` returns `none` exactly when the name has no dot. -/
theorem lastDotSuffix_eq_none_iff (l : List Char) :
    lastDotSuffix l = none ↔ '.' ∉ l := by
  induction l with
  | nil => simp [lastDotSuffix]
  | cons c rest ih =>
    cases h : lastDotSuffix rest with
    | some s =>
      have hd : '.' ∈ rest := by
        by_contra hx
        rw [← ih] at hx
        rw [h] at hx
        exact Option.some_ne_none s hx
      simp [lastDotSuffix, h, hd]
    | none =>
      have hr : '.' ∉ rest := ih.mp h
      by_cases hc : c = '.'
      · simp [lastDotSuffix, h, hc]
      · simp [lastDotSuffix, h, hc, hr, Ne.symm hc]

/-- Helper: the `strrchr`-computed extension equals `".xml"` exactly when the
name ends in `".xml"`. -/
theorem lastDotSuffix_eq_xml_iff (l : List Char) :
    lastDotSuffix l = some xmlExt ↔ xmlExt <:+ l := by
  induction l with
  | nil =>
    constructor
    · intro h; simp [lastDotSuffix] at h
    · intro h; rw [List.suffix_nil] at h; exact absurd h (by decide)
  | cons c rest ih =>
    cases h : lastDotSuffix rest with
    | some s =>
      constructor
      · intro hl
        rw [lastDotSuffix, h] at hl
        simp only [] at hl
        have hrest : lastDotSuffix rest = some xmlExt := by rw [h, hl]
        exact (ih.mp hrest).trans (List.suffix_cons c rest)
      · intro hr
        rcases List.suffix_cons_iff.mp hr with heq | hsuf
        · exfalso
          have h2 : ('.' :: "xml".toList : List Char) = c :: rest := heq
          injection h2 with h3 h4
          rw [← h4] at h
          exact Option.some_ne_none s ((by decide : lastDotSuffix "xml".toList = none) ▸ h).symm
        · have hrest := ih.mpr hsuf
          rw [lastDotSuffix, h]
          rw [h] at hrest
          simpa using hrest
    | none =>
      by_cases hc : c = '.'
      · subst hc
        constructor
        · intro hl
          rw [lastDotSuffix, h] at hl
          have hl2 : ('.' :: rest : List Char) = xmlExt := by simpa using hl
          rw [← hl2]
        · intro hr
          rcases List.suffix_cons_iff.mp hr with heq | hsuf
          · rw [lastDotSuffix, h]
            simp [heq]
          · exfalso
            exact (lastDotSuffix_eq_none_iff rest).mp h
              (hsuf.subset (by decide : '.' ∈ xmlExt))
      · constructor
        · intro hl
          rw [lastDotSuffix, h] at hl
          simp [hc] at hl
        · intro hr
          exfalso
          rcases List.suffix_cons_iff.mp hr with heq | hsuf
          · have h2 : ('.' :: "xml".toList : List Char) = c :: rest := heq
            injection h2 with h3 _
            exact hc h3.symm
          · exact (lastDotSuffix_eq_none_iff rest).mp h
              (hsuf.subset (by decide : '.' ∈ xmlExt))

/-- C5: the directory scan passes to the loader exactly the entries whose
name ends (case-sensitively) in the extension `".xml"`, each as
`dirname + "/" + name`, and the loader's per-file verdict does not influence
which files are scanned (the result is the same for every loader); on the
spec's examples with a loader that fails on every file, `foo.xml` is still
passed while `foo.xml.bak` and `foo.XML` are not. -/
theorem c5_only_exact_xml :
    (∀ (xml_read : List Char → Bool) (dirname : List Char)
        (entries : List (List Char)),
      clish_shell_load_dir xml_read dirname entries
        = (entries.filter fun n => decide (xmlExt <:+ n)).map
            fun n => dirname ++ '/' :: n)
      ∧ clish_shell_load_dir (fun _ => false) "d".toList
          ["foo.xml".toList, "foo.xml.bak".toList, "foo.XML".toList]
        = ["d/foo.xml".toList] := by
  constructor
  · intro xml_read dirname entries
    induction entries with
    | nil => rfl
    | cons name rest ih =>
      rw [clish_shell_load_dir]
      cases h : lastDotSuffix name with
      | none =>
        have hn : ¬ xmlExt <:+ name := by
          intro hs
          rw [← lastDotSuffix_eq_xml_iff, h] at hs
          exact Option.some_ne_none xmlExt hs.symm
        simp [hn, ih, List.filter_cons]
      | some ext =>
        by_cases he : ext = xmlExt
        · subst he
          have hs : xmlExt <:+ name := (lastDotSuffix_eq_xml_iff name).mp h
          simp [hs, ih, lub_string_cat, List.filter_cons]
        · have hn : ¬ xmlExt <:+ name := by
            intro hs
            have := (lastDotSuffix_eq_xml_iff name).mpr hs
            rw [h] at this
            injection this with h2
            exact he h2
          simp [he, hn, ih, List.filter_cons]
  · decide

/-- C1: the code retains a tilde that sits at the very start of the string
(the `count == 0` path skips the pointer advance labelled "skip the tilde
in the path"), so with HOME = "/h" the path "~/.clish" expands to
"/h~/.clish" while the spec demands "/h/.clish"; the same happens for a
tilde immediately following another tilde ("a~~b"); a tilde preceded by at
least one character is handled as specified ("/etc/clish;~/.clish"). -/
theorem c1_tilde_at_segment_start :
    clish_shell_tilde_expand "/h".toList "~/.clish".toList
        = "/h~/.clish".toList
      ∧ specTildeExpand "/h".toList "~/.clish".toList = "/h/.clish".toList
      ∧ clish_shell_tilde_expand "/h".toList "a~~b".toList = "a/h/h~b".toList
      ∧ specTildeExpand "/h".toList "a~~b".toList = "a/h/hb".toList
      ∧ clish_shell_tilde_expand "/h".toList default_path
        = "/etc/clish;/h/.clish".toList := by
  refine ⟨by decide, by decide, by decide, by decide, by decide⟩

/-- C2 counterexample: a session whose single (scripted) input source has
one failing line ends its run on the script-error path — the final state
is SCRIPT_ERROR and the stack has been fully unwound — yet the flag
returned by the synchronous entry point is true, not false as claimed. -/
theorem c2_counterexample :
    _loop (some ⟨ShellState.READY, 9, false, [LineOutcome.err]⟩) 5
      = (⟨ShellState.SCRIPT_ERROR, [], [9]⟩,
         [Event.readLine 9, Event.popped 9 true, Event.closeStream 9],
         true) := by
  decide

/-- C2 amended: the synchronous entry point runs the read-execute loop in
the caller and returns BOOL_TRUE unconditionally — also for runs that end
on a script error, and for a NULL session. -/
theorem c2_loop_always_true (sh : Option ClishShell) (fuel : Nat) :
    clish_shell_loop sh fuel = true := by
  cases sh with
  | none => rfl
  | some s =>
    simp only [clish_shell_loop, _loop]
    split
    · rfl
    · rfl

/-- C3 counterexample: in an interactive session (top source is a tty) a
dispatch failure is followed — in the same iteration, because line 140 of
shell_spawn.c tests SCRIPT_ERROR without an isatty guard — by an
InputStack pop, contradicting "no InputStack entry is popped"; here the
pop unwinds the only entry, so the session even terminates without ever
recovering to READY. -/
theorem c3_counterexample :
    _loop (some ⟨ShellState.READY, 1, true, [LineOutcome.err]⟩) 5
      = (⟨ShellState.SCRIPT_ERROR, [], [1]⟩,
         [Event.readLine 1, Event.popped 1 true, Event.closeStream 1],
         true) := by
  decide

/-- C3 amended: after a dispatched line fails, the state moves to
SCRIPT_ERROR and exactly one InputStack pop occurs at the end of that same
iteration (closing the popped source iff owned); the automatic recovery to
READY happens at the start of the next iteration, before the next read,
and only when the then-top source is a tty. -/
theorem c3_amended :
    (∀ (sid : Nat) (ow tty : Bool) (lines : List LineOutcome)
        (rest : List Source) (closed : List Nat),
      loopBody
          ⟨ShellState.READY,
            ⟨sid, ow, tty, LineOutcome.err :: lines⟩ :: rest, closed⟩
        = (⟨ShellState.SCRIPT_ERROR, rest,
              if ow then closed ++ [sid] else closed⟩,
           Event.readLine sid ::
             (if ow then [Event.popped sid true, Event.closeStream sid]
              else [Event.popped sid false]),
           !rest.isEmpty))
    ∧ (∀ (sid : Nat) (ow : Bool) (lines : List LineOutcome)
        (rest : List Source) (closed : List Nat),
      loopBody
          ⟨ShellState.SCRIPT_ERROR,
            ⟨sid, ow, true, LineOutcome.ok :: lines⟩ :: rest, closed⟩
        = (⟨ShellState.READY, ⟨sid, ow, true, lines⟩ :: rest, closed⟩,
           [Event.recover, Event.readLine sid], true)) := by
  constructor
  · intro sid ow tty lines rest closed
    cases ow <;> cases tty <;>
      simp [loopBody, tinyrl_isatty, clish_shell_readline, clish_shell_pop_file]
  · intro sid ow lines rest closed
    cases ow <;>
      simp [loopBody, tinyrl_isatty, clish_shell_readline, clish_shell_pop_file]

/-- C4 counterexample: in a non-interactive session whose single source has
one failing line, the InputStack pop triggered by the failure occurs in the
same iteration as the failing dispatch, that pop returns false and the loop
terminates — there is no next loop iteration on which a pop could occur as
the claim states. -/
theorem c4_counterexample :
    loopBody ⟨ShellState.READY, [⟨2, true, false, [LineOutcome.err]⟩], []⟩
      = (⟨ShellState.SCRIPT_ERROR, [], [2]⟩,
         [Event.readLine 2, Event.popped 2 true, Event.closeStream 2],
         false) := by
  decide

/-- C4 amended: in a non-interactive session a dispatch failure moves the
state to SCRIPT_ERROR and causes exactly one InputStack pop at the end of
that same iteration; while the state remains SCRIPT_ERROR and the top
source is not a tty, each further iteration suppresses the read and
performs exactly one more pop; an iteration whose pop returns false makes
the loop terminate immediately. -/
theorem c4_amended :
    (∀ (sid : Nat) (ow : Bool) (lines : List LineOutcome)
        (rest : List Source) (closed : List Nat),
      loopBody
          ⟨ShellState.READY,
            ⟨sid, ow, false, LineOutcome.err :: lines⟩ :: rest, closed⟩
        = (⟨ShellState.SCRIPT_ERROR, rest,
              if ow then closed ++ [sid] else closed⟩,
           Event.readLine sid ::
             (if ow then [Event.popped sid true, Event.closeStream sid]
              else [Event.popped sid false]),
           !rest.isEmpty))
    ∧ (∀ (sid : Nat) (ow : Bool) (lines : List LineOutcome)
        (rest : List Source) (closed : List Nat),
      loopBody
          ⟨ShellState.SCRIPT_ERROR, ⟨sid, ow, false, lines⟩ :: rest, closed⟩
        = (⟨ShellState.SCRIPT_ERROR, rest,
              if ow then closed ++ [sid] else closed⟩,
           (if ow then [Event.popped sid true, Event.closeStream sid]
            else [Event.popped sid false]),
           !rest.isEmpty))
    ∧ (∀ (fuel : Nat) (ls : LoopState),
      (loopBody ls).2.2 = false →
        runLoop (fuel + 1) ls = ((loopBody ls).1, (loopBody ls).2.1, false)) := by
  refine ⟨?_, ?_, ?_⟩
  · intro sid ow lines rest closed
    cases ow <;>
      simp [loopBody, tinyrl_isatty, clish_shell_readline, clish_shell_pop_file]
  · intro sid ow lines rest closed
    cases ow <;>
      simp [loopBody, tinyrl_isatty, clish_shell_readline, clish_shell_pop_file]
  · intro fuel ls h
    simp [runLoop, h]

/-- C4 amended, witness: a SCRIPT_ERROR iteration over a non-tty source
whose pop empties the stack makes the loop stop with that pop's events. -/
theorem c4_amended_witness :
    runLoop 1 ⟨ShellState.SCRIPT_ERROR, [⟨2, true, false, []⟩], []⟩
      = (⟨ShellState.SCRIPT_ERROR, [], [2]⟩,
         [Event.popped 2 true, Event.closeStream 2], false) := by
  have h := c4_amended.2.2 0
    ⟨ShellState.SCRIPT_ERROR, [⟨2, true, false, []⟩], []⟩ (by decide)
  exact h.trans (by decide)

/-- C8 counterexample: the caller supplies the default input stream with
underlying descriptor 5; running the loop pops the base entry — pushed at
shell_spawn.c lines 122-123 with owns = BOOL_TRUE around an
fdopen(fileno(...)) wrapper sharing that descriptor — and the engine
closes descriptor 5, contradicting "never closed or released by the
engine on any execution path". -/
theorem c8_counterexample :
    _loop (some ⟨ShellState.READY, 5, false, [LineOutcome.ok]⟩) 5
      = (⟨ShellState.READY, [], [5]⟩,
         [Event.readLine 5, Event.readEof 5, Event.popped 5 true,
          Event.closeStream 5],
         true) := by
  decide

/-- C8 amended: the base of the InputStack is an engine-owned entry whose
stream shares the caller stream's underlying descriptor; popping an owned
entry closes its descriptor, so the pop that unwinds the base entry closes
the resource underlying the caller-supplied default stream (the caller's
stream object itself is not handed to the engine, only the fdopen
wrapper). -/
theorem c8_amended :
    (∀ s : ClishShell,
      initialLoopState s
        = ⟨s.state, [⟨s.istreamId, true, s.istreamTty, s.istreamLines⟩], []⟩)
    ∧ (∀ (st : ShellState) (sid : Nat) (tty : Bool)
        (lines : List LineOutcome) (rest : List Source) (closed : List Nat),
      clish_shell_pop_file ⟨st, ⟨sid, true, tty, lines⟩ :: rest, closed⟩
        = (⟨st, rest, closed ++ [sid]⟩,
           [Event.popped sid true, Event.closeStream sid], !rest.isEmpty))
    ∧ (_loop (some ⟨ShellState.READY, 5, false, [LineOutcome.ok]⟩) 5).1.closed
        = [5] := by
  refine ⟨fun s => rfl, ?_, by decide⟩
  intro st sid tty lines rest closed
  simp [clish_shell_pop_file]

/-- Helper: within one loop iteration, the descriptors recorded as closed
grow exactly by the close events of that iteration. -/
theorem loopBody_closed (ls : LoopState) :
    (loopBody ls).1.closed = ls.closed ++ closedIds (loopBody ls).2.1 := by
  obtain ⟨st, stack, closed⟩ := ls
  cases stack with
  | nil =>
    cases st <;>
      simp [loopBody, tinyrl_isatty, clish_shell_readline,
        clish_shell_pop_file, closedIds]
  | cons src rest =>
    obtain ⟨sid, ow, tty, lines⟩ := src
    cases lines with
    | nil =>
      cases st <;> cases tty <;> cases ow <;>
        simp [loopBody, tinyrl_isatty, clish_shell_readline,
          clish_shell_pop_file, closedIds]
    | cons line more =>
      cases line <;> cases st <;> cases tty <;> cases ow <;>
        simp [loopBody, tinyrl_isatty, clish_shell_readline,
          clish_shell_pop_file, closedIds]

/-- Helper: over any threaded run, the descriptors recorded as closed are
exactly those of the close events emitted by the loop iterations; in
particular a cancellation exit adds no closes of its own. -/
theorem runLoopThread_closed (cancelAt : Nat → Bool) :
    ∀ (fuel k : Nat) (ls : LoopState),
      (runLoopThread cancelAt fuel k ls).1.closed
        = ls.closed ++ closedIds (runLoopThread cancelAt fuel k ls).2.1
  | 0, k, ls => by simp [runLoopThread, closedIds]
  | fuel + 1, k, ls => by
    have hb := loopBody_closed ls
    by_cases hc : cancelAt k
    · simp [runLoopThread, hc, clish_shell_thread_cleanup, hb]
    · by_cases hr : (loopBody ls).2.2
      · have ih := runLoopThread_closed cancelAt fuel (k + 1) (loopBody ls).1
        simp [runLoopThread, hc, hr, closedIds, List.filterMap_append, hb, ih,
          List.append_assoc]
      · simp [runLoopThread, hc, hr, hb]

/-- C9 counterexample: a cancellation request honoured at the checkpoint
between the first and second dispatch makes the worker exit while the
engine-owned base input source is still on the stack and nothing has been
closed — the worker does not unwind with all owned sources closed before
Join returns. -/
theorem c9_counterexample :
    _loopThread
        ⟨ShellState.READY, 7, false,
          [LineOutcome.ok, LineOutcome.ok, LineOutcome.ok]⟩
        (fun k => k == 1) 10
      = (⟨ShellState.READY,
            [⟨7, true, false, [LineOutcome.ok, LineOutcome.ok]⟩], []⟩,
         [Event.readLine 7], ExitKind.cancelled) := by
  decide

/-- C9 amended: cancellation is honoured only at the checkpoints (after
the initial push and at the end of each iteration), and when it is
honoured the worker exits through a cleanup handler that performs no
unwinding — every close of the run stems from a pop inside a loop
iteration, cancellation adds none, and input sources still on the stack
(including the engine-owned base source) remain unclosed when the worker
ends. -/
theorem c9_amended :
    (∀ ls : LoopState, clish_shell_thread_cleanup ls = ls)
    ∧ (∀ (cancelAt : Nat → Bool) (fuel k : Nat) (ls : LoopState),
        (runLoopThread cancelAt fuel k ls).1.closed
          = ls.closed ++ closedIds (runLoopThread cancelAt fuel k ls).2.1)
    ∧ (_loopThread
          ⟨ShellState.READY, 7, false,
            [LineOutcome.ok, LineOutcome.ok, LineOutcome.ok]⟩
          (fun k => k == 1) 10).2.2 = ExitKind.cancelled
    ∧ (_loopThread
          ⟨ShellState.READY, 7, false,
            [LineOutcome.ok, LineOutcome.ok, LineOutcome.ok]⟩
          (fun k => k == 1) 10).1
        = ⟨ShellState.READY,
            [⟨7, true, false, [LineOutcome.ok, LineOutcome.ok]⟩], []⟩ :=
  ⟨fun _ => rfl, fun cancelAt => runLoopThread_closed cancelAt,
   by decide, by decide⟩

/-- C6: when the file cannot be opened, RunFromFile returns failure and
leaves everything untouched (no event happens, the session is returned
unchanged); when the open succeeds, the last event of the call is the
close of the opened stream, on both the synchronous and the threaded
path. -/
theorem c6_from_file :
    (∀ (s : ClishShell) (it : Bool) (cr jr : Int) (fuel : Nat)
        (fn : List Char),
      _from_file (some s) it cr jr fuel (some fn) none = (some s, [], false))
    ∧ (∀ (s : ClishShell) (it : Bool) (cr jr : Int) (fuel : Nat)
        (fn : List Char) (file : Source),
      ((_from_file (some s) it cr jr fuel (some fn) (some file)).2.1).getLast?
        = some (Event.closeStream file.sid)) := by
  constructor
  · intro s it cr jr fuel fn
    rfl
  · intro s it cr jr fuel fn file
    by_cases hit : it
    · simp [_from_file, hit]
    · simp [_from_file, hit, List.getLast?_concat]

/-- C7: with a non-NULL session and pthread_create failing with EAGAIN
(returning the positive error number 11, as POSIX prescribes), Spawn
itself reports 11, but SpawnAndWait — whose guard tests for a negative
spawn result — falls through to the join and reports BOOL_FALSE, the
ordinary failed-run value; whatever the joined result pointer holds,
SpawnAndWait can never report the distinct value -1 for this failure; the
threaded RunFromFile maps the same outcome to plain false. -/
theorem c7_spawn_failure_indistinct :
    clish_shell_spawn (some ⟨ShellState.READY, 3, false, []⟩) 11 = 11
    ∧ clish_shell_spawn_and_wait (some ⟨ShellState.READY, 3, false, []⟩) 11 0
        = BOOL_FALSE
    ∧ (∀ jr : Int,
        clish_shell_spawn_and_wait (some ⟨ShellState.READY, 3, false, []⟩) 11 jr
          ≠ -1)
    ∧ (_from_file (some ⟨ShellState.READY, 3, false, []⟩) true 11 0 5
          (some ['f']) (some ⟨4, true, false, []⟩)).2.2 = false := by
  refine ⟨rfl, by decide, ?_, by decide⟩
  intro jr
  simp only [clish_shell_spawn_and_wait, clish_shell_spawn]
  rw [if_neg (by norm_num : ¬ (11 : Int) < 0)]
  simp only [clish_shell_wait]
  split
  · decide
  · decide

/-- C10: every entry point returns without dereferencing a NULL session,
with the inconsistent outcomes the claim lists: Spawn reports -1, Wait
reports BOOL_FALSE, RunFromFile reports false, yet the synchronous run
reports true. -/
theorem c10_null_session :
    (∀ cr : Int, clish_shell_spawn none cr = -1)
    ∧ (∀ jr : Int, clish_shell_wait none jr = BOOL_FALSE)
    ∧ (∀ (it : Bool) (cr jr : Int) (fuel : Nat) (fn : Option (List Char))
        (f : Option Source),
      _from_file none it cr jr fuel fn f = (none, [], false))
    ∧ (∀ fuel : Nat, clish_shell_loop none fuel = true) := by
  refine ⟨fun _ => rfl, fun _ => rfl, ?_, fun _ => rfl⟩
  intro it cr jr fuel fn f
  cases fn <;> rfl

end Klish
